import Mathlib

/-!
Shallow embedding of `src/telegram_stream_bot.py`: the ffmpeg process
supervisor (globals `ffmpeg_process` / `stream_status`, operations
`start_ffmpeg_stream`, `stop_ffmpeg_stream`, the reconciling `/status`
bot command `status_command`, and the two Flask read endpoints `home`
and `/health`).

Modelling choices:
  * The child-process handle `ffmpeg_process` is `Option Nat` (a pid).
  * `poll()` of the currently recorded process is modelled by the state
    field `procAlive : Bool`: `poll() is None` in the source corresponds
    to `procAlive = true`. The child dying on its own is an external
    environment step that flips `procAlive` to `false` (death is
    monotone: a step never resurrects a process).
  * The outcome of `subprocess.Popen` is an environment input
    (`SpawnOutcome`): a fresh pid, or an exception (the `except` branch
    of `start_ffmpeg_stream`).
  * The outcome of `terminate(); wait(timeout=5)` is an environment
    input (`StopOutcome`): exit within the 5-second grace period,
    `TimeoutExpired` followed by `kill()`, or some other exception
    (the final generic `except Exception` branch of
    `stop_ffmpeg_stream`).
  * Configuration (`STREAM_INPUT`, `RTMP_OUTPUT`, `WEB_PORT`,
    `BOT_TOKEN`) is read once at startup from the environment, so the
    state carries it as plain fields that no operation writes.
-/

namespace StreamBot

/-- The three values ever assigned to the global `stream_status` string. -/
inductive Status
  | STOPPED
  | STREAMING
  | ERROR
deriving DecidableEq, Repr

/-- Rendering of a status value as the string stored in `stream_status`. -/
def Status.toStr : Status → String
  | .STOPPED => "STOPPED"
  | .STREAMING => "STREAMING"
  | .ERROR => "ERROR"

/-- The mutable globals of the script together with its read-only
configuration. `procAlive` models actual liveness of the process recorded
in `ffmpeg_process` (meaningful only when that is `some _`). -/
structure BotState where
  ffmpeg_process : Option Nat
  procAlive : Bool
  stream_status : Status
  STREAM_INPUT : String
  RTMP_OUTPUT : String
  WEB_PORT : Nat
  BOT_TOKEN : String
deriving DecidableEq, Repr

/-- Result of the `subprocess.Popen` call in `start_ffmpeg_stream`:
either a live handle (fresh pid) or the exception caught by its
`except` block. -/
inductive SpawnOutcome
  | ok (pid : Nat)
  | fail (cause : String)
deriving DecidableEq, Repr

/-- Outcome of `terminate(); wait(timeout=5)` in `stop_ffmpeg_stream`:
the child exits within the grace period, or `wait` raises
`TimeoutExpired` and `kill()` succeeds, or `terminate`/`kill` raises
some other exception (the generic `except Exception` branch). -/
inductive StopOutcome
  | graceful
  | timeoutKill
  | fault (msg : String)
deriving DecidableEq, Repr

/-- Translation of `start_ffmpeg_stream` (source lines 115-139).
The guard is `ffmpeg_process is not None and ffmpeg_process.poll() is
None`; on a successful `Popen` the handle and `stream_status =
"STREAMING"` are stored; if `Popen` raises, `stream_status = "ERROR"`
and — since the assignment to `ffmpeg_process` never happened — the
previous handle value is kept. Returns the Python function's boolean. -/
def start_ffmpeg_stream (s : BotState) (env : SpawnOutcome) : Bool × BotState :=
  if s.ffmpeg_process.isSome && s.procAlive then
    (false, s)
  else
    match env with
    | .ok pid =>
        (true, { s with ffmpeg_process := some pid, procAlive := true,
                        stream_status := Status.STREAMING })
    | .fail _ =>
        (false, { s with stream_status := Status.ERROR })

/-- Translation of `stop_ffmpeg_stream` (source lines 141-165).
The guard is `ffmpeg_process is None or ffmpeg_process.poll() is not
None`. On exit within the grace period, and likewise after
`TimeoutExpired` plus `kill()`, the handle is cleared and status set to
`STOPPED` with return `True`; any other exception returns `False`
leaving the state untouched. -/
def stop_ffmpeg_stream (s : BotState) (env : StopOutcome) : Bool × BotState :=
  if s.ffmpeg_process.isNone || !s.procAlive then
    (false, s)
  else
    match env with
    | .graceful =>
        (true, { s with ffmpeg_process := none, procAlive := false,
                        stream_status := Status.STOPPED })
    | .timeoutKill =>
        (true, { s with ffmpeg_process := none, procAlive := false,
                        stream_status := Status.STOPPED })
    | .fault _ =>
        (false, s)

/-- The text assembled by the `/status` bot command (truncates the input
URL to 50 characters as `STREAM_INPUT[:50]` does). -/
def statusMessage (st : Status) (input : String) (port : Nat) : String :=
  "Current Status Stream: " ++ st.toStr ++ " Input: " ++ input.take 50 ++
    "... Output: RTMP Stream Web App: LIVE (Port " ++ toString port ++ ")"

/-- Translation of `status_command` (source lines 203-220): if
`ffmpeg_process is not None and ffmpeg_process.poll() is not None` it
downgrades `stream_status` to `"STOPPED"` and clears the handle, then
renders the status message from the (possibly reconciled) state. -/
def status_command (s : BotState) : String × BotState :=
  let t := if s.ffmpeg_process.isSome && !s.procAlive then
      { s with stream_status := Status.STOPPED, ffmpeg_process := none }
    else s
  (statusMessage t.stream_status t.STREAM_INPUT t.WEB_PORT, t)

/-- The dynamic parts of the HTML page rendered by the `/` route. -/
def homePage (st : Status) (input : String) (port : Nat) : String :=
  "Stream Status: " ++ st.toStr ++ " Input Source: " ++ input ++
    " Container Port: " ++ toString port

/-- Translation of the Flask `/` route `home` (source lines 39-108): a
plain read of `stream_status`, `STREAM_INPUT` and `WEB_PORT` with no
assignment to any global. -/
def home (s : BotState) : String × BotState :=
  (homePage s.stream_status s.STREAM_INPUT s.WEB_PORT, s)

/-- The JSON body returned by the `/health` route. -/
structure HealthPayload where
  status : String
  stream : String
  bot : String
deriving DecidableEq, Repr

/-- Body of the `/health` response as a function of the recorded status. -/
def healthPayload (st : Status) : HealthPayload :=
  { status := "healthy", stream := st.toStr, bot := "running" }

/-- Translation of the Flask `/health` route (source lines 110-113):
returns the dict and HTTP code 200, reading only `stream_status`. -/
def health (s : BotState) : (HealthPayload × Nat) × BotState :=
  ((healthPayload s.stream_status, 200), s)

/-- The state at module load: `ffmpeg_process = None`,
`stream_status = "STOPPED"`, configuration from the environment. -/
def initState (input output : String) (port : Nat) (token : String) : BotState :=
  { ffmpeg_process := none, procAlive := false, stream_status := Status.STOPPED,
    STREAM_INPUT := input, RTMP_OUTPUT := output, WEB_PORT := port,
    BOT_TOKEN := token }

/-- One step of the system: any supervisor operation with any
environment outcome, or the child process dying on its own. -/
inductive Step : BotState → BotState → Prop
  | startCall (s : BotState) (env : SpawnOutcome) :
      Step s (start_ffmpeg_stream s env).2
  | stopCall (s : BotState) (env : StopOutcome) :
      Step s (stop_ffmpeg_stream s env).2
  | statusCall (s : BotState) : Step s (status_command s).2
  | homeCall (s : BotState) : Step s (home s).2
  | healthCall (s : BotState) : Step s (health s).2
  | childExit (s : BotState) : Step s { s with procAlive := false }

/-- Reachability in zero or more steps. -/
def Reach (s t : BotState) : Prop := Relation.ReflTransGen Step s t

/-- The handle/status relationship the code actually maintains:
`STREAMING` implies a recorded handle, `STOPPED` implies no handle, a
missing handle implies no live process, and in an `ERROR` state any
recorded handle is dead. (It does NOT say `ERROR` implies no handle.) -/
def StateInv (s : BotState) : Prop :=
  (s.stream_status = Status.STREAMING → s.ffmpeg_process.isSome = true) ∧
  (s.stream_status = Status.STOPPED → s.ffmpeg_process = none) ∧
  (s.ffmpeg_process = none → s.procAlive = false) ∧
  (s.stream_status = Status.ERROR → s.ffmpeg_process = none ∨ s.procAlive = false)

instance (s : BotState) : Decidable (StateInv s) := by
  unfold StateInv; infer_instance

/-! Concrete trace used for counterexamples: the bot starts with the
default configuration, a stream is started successfully, the ffmpeg
child then dies on its own (e.g. the source goes away), and a second
start is attempted. -/

/-- Initial state with the configuration defaults hard-coded in the
source. -/
def cfg0 : BotState :=
  initState
    "https://d1zq5no55rw5ua.cloudfront.net/136742_hindi_hls_03dea3461951169ta-di_h264/720p.m3u8"
    "rtmps://dc5-1.rtmp.t.me/s/gg" 8080 "YOUR_BOT_TOKEN_HERE"

/-- State after one successful start: streaming with a live child. -/
def sStreaming : BotState := (start_ffmpeg_stream cfg0 (SpawnOutcome.ok 1)).2

/-- State after the ffmpeg child has died on its own: `stream_status` is
still `"STREAMING"` and the handle is still recorded, but the process is
gone. -/
def sDied : BotState := { sStreaming with procAlive := false }

/-- State after a further start whose `Popen` raises, attempted from
`sDied`: the guard passes (the recorded process is dead), the spawn
fails, so `stream_status` becomes `"ERROR"` while the stale handle is
still recorded. -/
def sStaleError : BotState :=
  (start_ffmpeg_stream sDied (SpawnOutcome.fail "ffmpeg binary missing")).2

/-- Projection on the read-only configuration of the script. -/
def config (s : BotState) : String × String × Nat × String :=
  (s.STREAM_INPUT, s.RTMP_OUTPUT, s.WEB_PORT, s.BOT_TOKEN)

/-! Spec-level model of the ProcessSupervisor interface. The repository
source under `src/` exposes no `restart` operation and its `start` takes
no URL argument, so the definitions below are modelled from the spec
(sections 3 and 4) rather than translated from source code. -/

/-- Modelled from the spec: the `Result` of `start(inputURL?)` —
`Started` with the resolved URL, `AlreadyRunning`, or `LaunchFailed`
with the underlying cause. -/
inductive StartResult
  | Started (url : String)
  | AlreadyRunning
  | LaunchFailed (cause : String)
deriving DecidableEq, Repr

/-- Modelled from the spec: the `Result` of `stop()` — `Stopped`
(graceful or forced) or `NotRunning`. -/
inductive StopResult
  | Stopped (forced : Bool)
  | NotRunning
deriving DecidableEq, Repr

/-- Modelled from the spec: the `StreamSession` record of section 3 —
`status`, the active `inputURL`, and the child-process `handle`. -/
structure SpecSession where
  status : Status
  inputURL : String
  handle : Option Nat
deriving DecidableEq, Repr

/-- Modelled from the spec: `start(inputURL?)` of section 4.1 — rejected
with `AlreadyRunning` and no side effect when status is `STREAMING`;
otherwise the optional URL (default `d` when absent) is substituted and
a spawn attempted: on success handle, `STREAMING` and the URL are stored
atomically, on failure status becomes `ERROR` with the handle left
null. -/
def spec_start (s : SpecSession) (u : Option String) (d : String)
    (env : SpawnOutcome) : StartResult × SpecSession :=
  if s.status = Status.STREAMING then (StartResult.AlreadyRunning, s)
  else
    let url := u.getD d
    match env with
    | .ok pid =>
        (StartResult.Started url,
          { status := Status.STREAMING, inputURL := url, handle := some pid })
    | .fail c =>
        (StartResult.LaunchFailed c, { s with status := Status.ERROR })

/-- Modelled from the spec: `stop()` of section 4.1 — `NotRunning` with
no side effect when status is not `STREAMING`; otherwise the child is
terminated (gracefully, or forcefully after the grace period — recorded
in the `forced` flag), the handle released and status set to
`STOPPED`. -/
def spec_stop (s : SpecSession) (forced : Bool) : StopResult × SpecSession :=
  if s.status = Status.STREAMING then
    (StopResult.Stopped forced,
      { s with status := Status.STOPPED, handle := none })
  else (StopResult.NotRunning, s)

/-- Modelled from the spec: `getStatus()` of section 4.1 — a snapshot
that lazily reconciles: when status is `STREAMING` but the child has
exited, status is downgraded to `STOPPED` and the handle cleared. -/
def spec_getStatus (s : SpecSession) (alive : Bool) :
    (Status × String) × SpecSession :=
  if s.status = Status.STREAMING && !alive then
    let t := { s with status := Status.STOPPED, handle := none }
    ((t.status, t.inputURL), t)
  else ((s.status, s.inputURL), s)

/-- Modelled from the spec: `restart(inputURL)` of section 4.1 — if
currently `STREAMING`, perform `stop()` unconditionally (ignoring its
result), then perform `start(inputURL)`. -/
def spec_restart (s : SpecSession) (url d : String) (forced : Bool)
    (env : SpawnOutcome) : StartResult × SpecSession :=
  let t := if s.status = Status.STREAMING then (spec_stop s forced).2 else s
  spec_start t (some url) d env

lemma stateInv_initState (input output : String) (port : Nat) (token : String) :
    StateInv (initState input output port token) := by
  simp [StateInv, initState]

lemma stateInv_step {s t : BotState} (h : StateInv s) (hst : Step s t) :
    StateInv t := by
  obtain ⟨h1, h2, h3, h4⟩ := h
  cases hst with
  | startCall env =>
      cases env with
      | ok pid =>
          cases hp : s.ffmpeg_process <;> cases ha : s.procAlive <;>
            simp_all [start_ffmpeg_stream, StateInv]
      | fail c =>
          cases hp : s.ffmpeg_process <;> cases ha : s.procAlive <;>
            simp_all [start_ffmpeg_stream, StateInv]
  | stopCall env =>
      cases env <;>
        (cases hp : s.ffmpeg_process <;> cases ha : s.procAlive <;>
          simp_all [stop_ffmpeg_stream, StateInv])
  | statusCall =>
      cases hp : s.ffmpeg_process <;> cases ha : s.procAlive <;>
        simp_all [status_command, StateInv]
  | homeCall => exact ⟨h1, h2, h3, h4⟩
  | healthCall => exact ⟨h1, h2, h3, h4⟩
  | childExit =>
      exact ⟨h1, h2, fun _ => rfl, fun he => (h4 he).imp id (fun _ => rfl)⟩

lemma stateInv_reach {s t : BotState} (h : StateInv s) (hr : Reach s t) :
    StateInv t := by
  induction hr with
  | refl => exact h
  | tail _ hstep ih => exact stateInv_step ih hstep

lemma reach_sStreaming : Reach cfg0 sStreaming :=
  Relation.ReflTransGen.single (Step.startCall cfg0 (SpawnOutcome.ok 1))

lemma reach_sDied : Reach cfg0 sDied :=
  reach_sStreaming.tail (Step.childExit sStreaming)

lemma reach_sStaleError : Reach cfg0 sStaleError :=
  reach_sDied.tail (Step.startCall sDied (SpawnOutcome.fail "ffmpeg binary missing"))

/-- C1 as stated is false: after `start` succeeds, the child dies on its
own, and a second `start` hits a spawn failure, the state has
`stream_status = ERROR` with the stale handle still non-null, so
"handle non-null iff status = STREAMING" (and in particular "ERROR
implies handle null") fails on a reachable state. -/
theorem c1_counterexample :
    Reach cfg0 sStaleError ∧
      sStaleError.ffmpeg_process ≠ none ∧
      sStaleError.stream_status ≠ Status.STREAMING ∧
      sStaleError.stream_status = Status.ERROR :=
  ⟨reach_sStaleError, by decide, by decide, by decide⟩

/-- C1 (amended): after any sequence of operations and external
child-exit events, the state satisfies `StateInv`: a `STREAMING` status
implies a recorded handle, a `STOPPED` status implies no handle, and an
`ERROR` status implies any recorded handle is dead — but `ERROR` does
not force the handle to be null. -/
theorem c1_handle_status_invariant (input output : String) (port : Nat)
    (token : String) (s : BotState)
    (h : Reach (initState input output port token) s) : StateInv s :=
  stateInv_reach (stateInv_initState input output port token) h

theorem c1_witness : StateInv sStaleError :=
  c1_handle_status_invariant
    "https://d1zq5no55rw5ua.cloudfront.net/136742_hindi_hls_03dea3461951169ta-di_h264/720p.m3u8"
    "rtmps://dc5-1.rtmp.t.me/s/gg" 8080 "YOUR_BOT_TOKEN_HERE"
    sStaleError reach_sStaleError

/-- C2 as stated is false: in the reachable state `sDied` the recorded
status is `STREAMING`, yet a `start` call succeeds and spawns a fresh
child (the guard tests process liveness, not the recorded status). -/
theorem c2_counterexample :
    Reach cfg0 sDied ∧
      sDied.stream_status = Status.STREAMING ∧
      (start_ffmpeg_stream sDied (SpawnOutcome.ok 2)).1 = true ∧
      (start_ffmpeg_stream sDied (SpawnOutcome.ok 2)).2.ffmpeg_process = some 2 :=
  ⟨reach_sDied, by decide, by decide, by decide⟩

/-- C2 (amended): a `start` call made while the recorded status is
`STREAMING` AND the child process is still alive returns the rejection
result `false` and leaves the whole state (status, handle, input URL)
unchanged; hence two consecutive starts with the child staying alive
spawn exactly one process. -/
theorem c2_start_rejected_while_alive (s : BotState) (env : SpawnOutcome)
    (hinv : StateInv s) (hst : s.stream_status = Status.STREAMING)
    (halive : s.procAlive = true) :
    start_ffmpeg_stream s env = (false, s) := by
  have hsome : s.ffmpeg_process.isSome = true := hinv.1 hst
  simp [start_ffmpeg_stream, hsome, halive]

theorem c2_witness :
    start_ffmpeg_stream sStreaming (SpawnOutcome.ok 2) = (false, sStreaming) :=
  c2_start_rejected_while_alive sStreaming (SpawnOutcome.ok 2)
    (by decide) (by decide) (by decide)

/-- C3 as stated is false: on the reachable state `sStreaming` (live
child, status `STREAMING`), a `stop` in which `terminate`/`kill` raises
an exception other than the grace-period timeout returns `false` — a
termination fault IS surfaced to the caller as something other than
`Stopped` — and leaves the state unchanged. -/
theorem c3_counterexample :
    Reach cfg0 sStreaming ∧
      sStreaming.ffmpeg_process ≠ none ∧
      sStreaming.procAlive = true ∧
      stop_ffmpeg_stream sStreaming (StopOutcome.fault "signal delivery failed") =
        (false, sStreaming) :=
  ⟨reach_sStreaming, by decide, by decide, by decide⟩

/-- C3 (amended): a `stop` on a live child returns `Stopped` (`true`)
with the handle cleared and status `STOPPED` both when the child exits
within the 5-second grace period and when the grace period elapses and
the supervisor escalates to an unconditional kill; but if the
termination facility raises any other fault, the call returns the
failure result `false` and the state is unchanged. -/
theorem c3_stop_graceful_or_forced (s : BotState)
    (hp : s.ffmpeg_process.isSome = true) (halive : s.procAlive = true) :
    stop_ffmpeg_stream s StopOutcome.graceful =
      (true, { s with ffmpeg_process := none, procAlive := false,
                      stream_status := Status.STOPPED }) ∧
    stop_ffmpeg_stream s StopOutcome.timeoutKill =
      (true, { s with ffmpeg_process := none, procAlive := false,
                      stream_status := Status.STOPPED }) ∧
    (∀ msg : String,
      stop_ffmpeg_stream s (StopOutcome.fault msg) = (false, s)) := by
  refine ⟨?_, ?_, fun msg => ?_⟩ <;>
    simp [stop_ffmpeg_stream, Option.isNone_iff_eq_none,
      Option.isSome_iff_ne_none.mp hp, halive]

/-- C4: if the recorded status is `STREAMING` but the child has already
exited, the `/status` command downgrades the status to `STOPPED` and
clears the handle before returning, reports `STOPPED` in its message,
and a `start` call made on the resulting state is accepted (its guard
does not fire): with a successful spawn it returns `true` and moves to
`STREAMING`. -/
theorem c4_lazy_reconciliation (s : BotState) (hinv : StateInv s)
    (hst : s.stream_status = Status.STREAMING) (hdead : s.procAlive = false) :
    (status_command s).2.stream_status = Status.STOPPED ∧
    (status_command s).2.ffmpeg_process = none ∧
    (status_command s).1 =
      statusMessage Status.STOPPED s.STREAM_INPUT s.WEB_PORT ∧
    (∀ pid : Nat,
      (start_ffmpeg_stream (status_command s).2 (SpawnOutcome.ok pid)).1 = true ∧
      (start_ffmpeg_stream (status_command s).2 (SpawnOutcome.ok pid)).2.stream_status =
        Status.STREAMING) := by
  have hsome : s.ffmpeg_process.isSome = true := hinv.1 hst
  refine ⟨?_, ?_, ?_, fun pid => ⟨?_, ?_⟩⟩ <;>
    simp [status_command, start_ffmpeg_stream, hsome, hdead]

theorem c4_witness :
    (status_command sDied).2.stream_status = Status.STOPPED ∧
    (status_command sDied).2.ffmpeg_process = none ∧
    (status_command sDied).1 =
      statusMessage Status.STOPPED sDied.STREAM_INPUT sDied.WEB_PORT ∧
    (∀ pid : Nat,
      (start_ffmpeg_stream (status_command sDied).2 (SpawnOutcome.ok pid)).1 = true ∧
      (start_ffmpeg_stream (status_command sDied).2 (SpawnOutcome.ok pid)).2.stream_status =
        Status.STREAMING) :=
  c4_lazy_reconciliation sDied (by decide) (by decide) (by decide)

/-- C5 as stated is false: a `start` whose spawn fails, issued from the
reachable state `sDied` (stale dead handle still recorded), sets
`stream_status = ERROR` but leaves the handle at its old non-null value,
refuting "the handle remains null". -/
theorem c5_counterexample :
    Reach cfg0 sDied ∧
      (start_ffmpeg_stream sDied (SpawnOutcome.fail "spawn error")).2.stream_status =
        Status.ERROR ∧
      (start_ffmpeg_stream sDied (SpawnOutcome.fail "spawn error")).2.ffmpeg_process =
        some 1 :=
  ⟨reach_sDied, by decide, by decide⟩

/-- C5 (amended): when the spawn call fails during a `start` that passed
the guard (no recorded handle, or a recorded but dead one), the call
returns the failure result `false` (the cause is only logged, not
returned), the status becomes `ERROR`, no child process is created, and
the handle merely keeps its prior value — so it remains null exactly
when it was null before the call. -/
theorem c5_spawn_failure (s : BotState) (cause : String)
    (hguard : s.ffmpeg_process = none ∨ s.procAlive = false) :
    start_ffmpeg_stream s (SpawnOutcome.fail cause) =
      (false, { s with stream_status := Status.ERROR }) := by
  rcases hguard with hp | ha
  · simp [start_ffmpeg_stream, hp]
  · simp [start_ffmpeg_stream, ha]

theorem c5_witness :
    start_ffmpeg_stream cfg0 (SpawnOutcome.fail "ffmpeg binary missing") =
      (false, { cfg0 with stream_status := Status.ERROR }) :=
  c5_spawn_failure cfg0 "ffmpeg binary missing" (Or.inl (by decide))

/-- C6: a `stop` call made in any reachable-invariant state whose
recorded status is not `STREAMING` (so `STOPPED` or `ERROR`) returns the
failure result `false` — "no active stream to stop" — and leaves the
entire state (status, handle, configuration) unchanged, whatever the
termination environment would have done. -/
theorem c6_stop_not_streaming (s : BotState) (env : StopOutcome)
    (hinv : StateInv s) (hst : s.stream_status ≠ Status.STREAMING) :
    stop_ffmpeg_stream s env = (false, s) := by
  obtain ⟨h1, h2, h3, h4⟩ := hinv
  cases hs : s.stream_status with
  | STREAMING => exact absurd hs hst
  | STOPPED => simp [stop_ffmpeg_stream, h2 hs]
  | ERROR =>
      rcases h4 hs with hp | ha
      · simp [stop_ffmpeg_stream, hp]
      · simp [stop_ffmpeg_stream, ha]

theorem c6_witness :
    stop_ffmpeg_stream cfg0 StopOutcome.graceful = (false, cfg0) :=
  c6_stop_not_streaming cfg0 StopOutcome.graceful (by decide) (by decide)

/-- C9: no supervisor operation ever writes the configuration values
(`STREAM_INPUT`, `RTMP_OUTPUT`, `WEB_PORT`, `BOT_TOKEN`); moreover the
reconciling `/status` command changes at most the derived
`stream_status`/`ffmpeg_process` fields (it either leaves the state
intact or performs exactly the downgrade-and-clear). -/
theorem c9_config_readonly (s : BotState) (e1 : SpawnOutcome) (e2 : StopOutcome) :
    config (start_ffmpeg_stream s e1).2 = config s ∧
    config (stop_ffmpeg_stream s e2).2 = config s ∧
    config (status_command s).2 = config s ∧
    config (home s).2 = config s ∧
    config (health s).2 = config s ∧
    ((status_command s).2 = s ∨
      (status_command s).2 =
        { s with stream_status := Status.STOPPED, ffmpeg_process := none }) := by
  refine ⟨?_, ?_, ?_, rfl, rfl, ?_⟩
  · cases e1 <;> simp [start_ffmpeg_stream, config] <;> split <;> simp [config]
  · cases e2 <;> simp [stop_ffmpeg_stream, config] <;> split <;> simp [config]
  · simp only [status_command, config]; split <;> simp
  · simp only [status_command]; split
    · exact Or.inr rfl
    · exact Or.inl rfl

/-- C10: the HTTP reads (`/` and `/health`) are pure reads of the
recorded status — they consult neither `poll()` nor the handle, perform
no reconciliation, and leave the state unchanged. Consequently on the
reachable state `sDied`, where the child has died but no reconciling
read has run, both endpoints still report `STREAMING`; only after the
bot `/status` command reconciles do they report `STOPPED`. -/
theorem c10_http_reads_pure (s : BotState) :
    home s = (homePage s.stream_status s.STREAM_INPUT s.WEB_PORT, s) ∧
    health s = ((healthPayload s.stream_status, 200), s) ∧
    Reach cfg0 sDied ∧
    sDied.procAlive = false ∧
    (health sDied).1.1.stream = "STREAMING" ∧
    (home sDied).1 = homePage Status.STREAMING sDied.STREAM_INPUT sDied.WEB_PORT ∧
    (health (status_command sDied).2).1.1.stream = "STOPPED" :=
  ⟨rfl, rfl, reach_sDied, by decide, by decide, by decide, by decide⟩

theorem c3_witness :
    stop_ffmpeg_stream sStreaming StopOutcome.graceful =
      (true, { sStreaming with ffmpeg_process := none, procAlive := false,
                               stream_status := Status.STOPPED }) ∧
    stop_ffmpeg_stream sStreaming StopOutcome.timeoutKill =
      (true, { sStreaming with ffmpeg_process := none, procAlive := false,
                               stream_status := Status.STOPPED }) ∧
    (∀ msg : String,
      stop_ffmpeg_stream sStreaming (StopOutcome.fault msg) = (false, sStreaming)) :=
  c3_stop_graceful_or_forced sStreaming (by decide) (by decide)

/-- C8 (spec-modelled): `restart(url2)` on a session `STREAMING` with
some `url1` first releases the old child (after the internal `stop` the
handle is null and status `STOPPED`, so the old and new child are never
alive simultaneously), then spawns once; when the spawn succeeds it
returns `Started url2` and ends `STREAMING` with `inputURL = url2`.
Furthermore restart is the only path changing the active source URL: a
`start` issued while `STREAMING` changes nothing, and `stop` and
`getStatus` never write `inputURL`. -/
theorem c8_restart (s : SpecSession) (url2 d : String) (forced : Bool)
    (pid : Nat) (hst : s.status = Status.STREAMING) :
    (spec_stop s forced).2.handle = none ∧
    (spec_stop s forced).2.status = Status.STOPPED ∧
    spec_restart s url2 d forced (SpawnOutcome.ok pid) =
      (StartResult.Started url2,
        { status := Status.STREAMING, inputURL := url2, handle := some pid }) ∧
    (∀ (t : SpecSession) (u : Option String) (env : SpawnOutcome),
      t.status = Status.STREAMING → (spec_start t u d env).2 = t) ∧
    (∀ (t : SpecSession) (alive : Bool),
      (spec_getStatus t alive).2.inputURL = t.inputURL) ∧
    (∀ (t : SpecSession) (f : Bool),
      (spec_stop t f).2.inputURL = t.inputURL) := by
  refine ⟨?_, ?_, ?_, ?_, ?_, ?_⟩
  · simp [spec_stop, hst]
  · simp [spec_stop, hst]
  · simp [spec_restart, spec_stop, spec_start, hst]
  · intro t u env ht; simp [spec_start, ht]
  · intro t alive; simp only [spec_getStatus]; split <;> rfl
  · intro t f; simp only [spec_stop]; split <;> rfl

theorem c8_witness :
    (spec_stop ⟨Status.STREAMING, "rtmp://old-source/stream1", some 7⟩ false).2.handle = none ∧
    (spec_stop ⟨Status.STREAMING, "rtmp://old-source/stream1", some 7⟩ false).2.status = Status.STOPPED ∧
    spec_restart ⟨Status.STREAMING, "rtmp://old-source/stream1", some 7⟩
        "rtmp://new-source/stream2" "rtmp://default/stream" false (SpawnOutcome.ok 8) =
      (StartResult.Started "rtmp://new-source/stream2",
        { status := Status.STREAMING, inputURL := "rtmp://new-source/stream2",
          handle := some 8 }) ∧
    (∀ (t : SpecSession) (u : Option String) (env : SpawnOutcome),
      t.status = Status.STREAMING →
        (spec_start t u "rtmp://default/stream" env).2 = t) ∧
    (∀ (t : SpecSession) (alive : Bool),
      (spec_getStatus t alive).2.inputURL = t.inputURL) ∧
    (∀ (t : SpecSession) (f : Bool),
      (spec_stop t f).2.inputURL = t.inputURL) :=
  c8_restart ⟨Status.STREAMING, "rtmp://old-source/stream1", some 7⟩
    "rtmp://new-source/stream2" "rtmp://default/stream" false 8 rfl

end StreamBot
